import Mathlib

/-
Verification of the Players-of-Games move decision pipeline.

The repository (src/games/base_game.py, src/games/chess_game.py) implements a
per-turn move decision loop on top of the external python-chess rules engine.
Following the architecture of the system, the rules engine is out of scope and
is modelled as a narrow interface (`Rules`): a record of the engine operations
the repository calls (legal-move list, push, attackers, check tests, parsing).
Every function of the repository that the claims touch is translated below
over that interface, statement by statement from the Python source.

python-chess conventions kept here: colors are booleans with WHITE = true;
squares are 0..63 (a1 = 0, h8 = 63); a move is a from-square, a to-square and
an optional promotion piece; SquareSet iteration is modelled as a list.
-/

namespace Pog

/-- Color of a side, as in python-chess: a boolean, WHITE = true. -/
abbrev Color := Bool

def WHITE : Color := true

def BLACK : Color := false

/-- Piece kinds of python-chess. -/
inductive PieceType where
  | pawn
  | knight
  | bishop
  | rook
  | queen
  | king
deriving DecidableEq, Repr

/-- A piece: a kind together with the color owning it (chess.Piece). -/
structure Piece where
  pieceType : PieceType
  color : Color
deriving DecidableEq, Repr

/-- A rules-engine move (chess.Move): origin square, destination square and an
optional promotion piece. -/
structure Mv where
  fromSq : Nat
  toSq : Nat
  promotion : Option PieceType := none
deriving DecidableEq, Repr

/-- chess.square_name: file letter then rank digit of a 0..63 square index. -/
def squareName (sq : Nat) : String :=
  String.mk [Char.ofNat (97 + sq % 8), Char.ofNat (49 + sq / 8)]

/-- Promotion suffix of Move.uci(). -/
def promotionSuffix : Option PieceType → String
  | none => ""
  | some PieceType.pawn => "p"
  | some PieceType.knight => "n"
  | some PieceType.bishop => "b"
  | some PieceType.rook => "r"
  | some PieceType.queen => "q"
  | some PieceType.king => "k"

/-- Move.uci(): origin square name, destination square name, promotion letter. -/
def uciOfMove (m : Mv) : String :=
  squareName m.fromSq ++ squareName m.toSq ++ promotionSuffix m.promotion

/-- The narrow interface to the external rules engine (python-chess) that the
repository consumes: exactly the board queries and operations called by the
code under verification.  A board value `B` stands for a chess.Board. -/
structure Rules (B : Type) where
  pieceAt : B → Nat → Option Piece
  turn : B → Color
  legalMoves : B → List Mv
  push : B → Mv → B
  pop : B → B
  isCapture : B → Mv → Bool
  attackers : B → Color → Nat → List Nat
  isCheck : B → Bool
  fullmoveNumber : B → Nat
  hasKingsideCastling : B → Color → Bool
  hasQueensideCastling : B → Color → Bool
  parseUci : String → Option Mv
  parseSan : B → String → Option Mv
  san : B → Mv → String
  fen : B → String

/-- Piece values of the repository (piece_values dictionaries in
chess_game.py): pawn 1, knight 3, bishop 3, rook 5, queen 9; the king is
absent from the dictionary, so its value defaults to 0. -/
def pieceValue : PieceType → Int
  | PieceType.pawn => 1
  | PieceType.knight => 3
  | PieceType.bishop => 3
  | PieceType.rook => 5
  | PieceType.queen => 9
  | PieceType.king => 0

/-- Contribution of one square to _evaluate_material: the piece value from the
chosen perspective, 0 for an empty square. -/
def squareContribution {B : Type} (R : Rules B) (b : B) (persp : Color) (sq : Nat) : Int :=
  match R.pieceAt b sq with
  | none => 0
  | some p => if p.color = persp then pieceValue p.pieceType else -pieceValue p.pieceType

/-- ChessGame._evaluate_material (chess_game.py lines 721-738): sum over all 64
squares of the piece values, positive for the perspective color and negative
for the other color. -/
def evaluate_material {B : Type} (R : Rules B) (b : B) (persp : Color) : Int :=
  (List.range 64).foldl (fun score sq => score + squareContribution R b persp sq) 0

/-- Number of occupied squares (piece_count of detect_game_phase). -/
def countPieces {B : Type} (R : Rules B) (b : B) : Nat :=
  (List.range 64).countP (fun sq => (R.pieceAt b sq).isSome)

/-- material_count of one color in detect_game_phase. -/
def materialOfColor {B : Type} (R : Rules B) (b : B) (c : Color) : Int :=
  (List.range 64).foldl (fun acc sq =>
    match R.pieceAt b sq with
    | none => acc
    | some p => if p.color = c then acc + pieceValue p.pieceType else acc) 0

/-- Count of pieces of one kind and color on the board (the piece_types
tallies of detect_game_phase). -/
def countColorType {B : Type} (R : Rules B) (b : B) (c : Color) (t : PieceType) : Nat :=
  (List.range 64).countP (fun sq =>
    match R.pieceAt b sq with
    | none => false
    | some p => decide (p.color = c) && decide (p.pieceType = t))

/-- castling_rights of detect_game_phase: any of the four rights remains. -/
def castlingAvailable {B : Type} (R : Rules B) (b : B) : Bool :=
  R.hasKingsideCastling b WHITE || R.hasQueensideCastling b WHITE ||
  R.hasKingsideCastling b BLACK || R.hasQueensideCastling b BLACK

/-- developed_pieces of detect_game_phase: among the eight original minor-piece
squares (B1 G1 B8 G8 C1 F1 C8 F8), count the squares that no longer hold a
knight or bishop. -/
def developedPieces {B : Type} (R : Rules B) (b : B) : Nat :=
  ([1, 6, 57, 62] ++ [2, 5, 58, 61]).countP (fun sq =>
    match R.pieceAt b sq with
    | none => true
    | some p => !(decide (p.pieceType = PieceType.knight) || decide (p.pieceType = PieceType.bishop)))

/-- Game phase labels returned by detect_game_phase. -/
inductive Phase where
  | opening
  | middlegame
  | endgame
deriving DecidableEq, Repr

/-- ChessGame.detect_game_phase (chess_game.py lines 1009-1093), phase label
only (the phase_info dictionary is statistics for logging).  Endgame when 10
or fewer pieces, or total material at most 20, or no queens and at most two
major pieces; else opening when the fullmove number is at most 12, few pieces
are developed or castling is available, and at least 28 pieces remain; else
middlegame. -/
def detect_game_phase {B : Type} (R : Rules B) (b : B) : Phase :=
  let pieceCount := countPieces R b
  let totalMaterial := materialOfColor R b WHITE + materialOfColor R b BLACK
  let queens := countColorType R b WHITE PieceType.queen + countColorType R b BLACK PieceType.queen
  let majorPieces := queens + countColorType R b WHITE PieceType.rook + countColorType R b BLACK PieceType.rook
  if pieceCount ≤ 10 ∨ totalMaterial ≤ 20 ∨
      (countColorType R b WHITE PieceType.queen = 0 ∧ countColorType R b BLACK PieceType.queen = 0 ∧ majorPieces ≤ 2) then
    Phase.endgame
  else if R.fullmoveNumber b ≤ 12 ∧ (developedPieces R b ≤ 4 ∨ castlingAvailable R b = true) ∧ 28 ≤ pieceCount then
    Phase.opening
  else
    Phase.middlegame

/-- ChessGame._compute_tactical_density (lines 740-749), pure value form:
available captures plus the number of the first 50 legal moves that give
check.  The push/pop discipline of the source is modelled separately by
`compute_tactical_densityS`. -/
def compute_tactical_density {B : Type} (R : Rules B) (b : B) : Nat :=
  (R.legalMoves b).countP (fun m => R.isCapture b m)
  + ((R.legalMoves b).take 50).countP (fun m => R.isCheck (R.push b m))

/-- ChessGame._compute_tactical_density with the live board threaded through
the push/pop pairs of the check-counting loop, exactly as the source mutates
and restores self.board.  Returns the density and the final live board. -/
def compute_tactical_densityS {B : Type} (R : Rules B) (b : B) : Nat × B :=
  let captures := (R.legalMoves b).countP (fun m => R.isCapture b m)
  let r := ((R.legalMoves b).take 50).foldl (fun acc m =>
    let b1 := R.push acc.2 m
    ((if R.isCheck b1 then acc.1 + 1 else acc.1), R.pop b1)) (0, b)
  (captures + r.1, r.2)

/-- ChessGame._blunder_threshold (lines 751-759): 3 in a quiet endgame
(density at most 2), 5 in a sharp position (density at least 6), else 4. -/
def blunder_threshold {B : Type} (R : Rules B) (b : B) : Int :=
  let phase := detect_game_phase R b
  let density := compute_tactical_density R b
  if phase = Phase.endgame ∧ density ≤ 2 then 3
  else if 6 ≤ density then 5
  else 4

/-- ChessGame._blunder_threshold with the live board threaded through the
tactical-density computation (the only part that pushes and pops the live
board; detect_game_phase only reads it). -/
def blunder_thresholdS {B : Type} (R : Rules B) (b : B) : Int × B :=
  let phase := detect_game_phase R b
  let d := compute_tactical_densityS R b
  ((if phase = Phase.endgame ∧ d.1 ≤ 2 then 3
    else if 6 ≤ d.1 then 5
    else 4), d.2)

/-- ChessGame._get_hanging_squares_for_current (lines 839-848): squares of the
side to move whose piece has strictly more opposing attackers than defenders. -/
def get_hanging_squares_for_current {B : Type} (R : Rules B) (b : B) : List Nat :=
  (List.range 64).filter (fun sq =>
    match R.pieceAt b sq with
    | none => false
    | some p =>
      decide (p.color = R.turn b) &&
      decide ((R.attackers b (R.turn b) sq).length < (R.attackers b (!R.turn b) sq).length))

/-- The first square (ascending, as python-chess iterates chess.SQUARES)
holding a queen of the given color; the queen search of the queen-sacrifice
rule in _would_be_gross_blunder. -/
def queenSquare {B : Type} (R : Rules B) (b : B) (persp : Color) : Option Nat :=
  (List.range 64).find? (fun sq =>
    match R.pieceAt b sq with
    | none => false
    | some p => decide (p.pieceType = PieceType.queen) && decide (p.color = persp))

/-- The worst material drop of _would_be_gross_blunder (lines 772-781): over
the first 12 opponent replies, captures first, the maximum of
baseline - eval(after reply), starting from 0. -/
def worstDrop {B : Type} (R : Rules B) (b : B) (m : Mv) : Int :=
  let persp := R.turn b
  let baseline := evaluate_material R b persp
  let temp := R.push b m
  let replies := R.legalMoves temp
  let forcing := replies.filter (fun r => R.isCapture temp r)
  let ordered := forcing ++ replies.filter (fun r => decide (r ∉ forcing))
  (ordered.take 12).foldl (fun w opp => max w (baseline - evaluate_material R (R.push temp opp) persp)) 0

/-- The queen-sacrifice flag of _would_be_gross_blunder (lines 793-814): after
the candidate move, if the mover still has a queen (first such square), the
first opposing attacker of that square can legally capture it, and that
capture drops at least 7 material from the baseline, the flag is set. -/
def queenSacFlag {B : Type} (R : Rules B) (b : B) (m : Mv) : Bool :=
  let persp := R.turn b
  let baseline := evaluate_material R b persp
  let temp := R.push b m
  match queenSquare R temp persp with
  | none => false
  | some qsq =>
    match R.attackers temp (!persp) qsq with
    | [] => false
    | a :: _ =>
      let capMove : Mv := { fromSq := a, toSq := qsq, promotion := none }
      if capMove ∈ R.legalMoves temp then
        decide (7 ≤ baseline - evaluate_material R (R.push temp capMove) persp)
      else false

/-- Body of ChessGame._would_be_gross_blunder (lines 761-815) after the
initial `threshold = self._blunder_threshold()`: the threshold adjustment for
being materially behind, the worst-drop scan over forcing-first replies, the
hanging-piece evacuation adjustment, the queen-sacrifice rule, and the final
veto decision `queen_sac or worst_drop >= threshold`. -/
def blunderRest {B : Type} (R : Rules B) (b : B) (m : Mv) (threshold0 : Int) : Bool :=
  let persp := R.turn b
  let baseline := evaluate_material R b persp
  let threshold1 := if baseline < -2 then threshold0 + 1 else threshold0
  let hangingBefore := get_hanging_squares_for_current R b
  let temp := R.push b m
  let replies := R.legalMoves temp
  let forcing := replies.filter (fun r => R.isCapture temp r)
  let ordered := forcing ++ replies.filter (fun r => decide (r ∉ forcing))
  let worst := (ordered.take 12).foldl (fun w opp => max w (baseline - evaluate_material R (R.push temp opp) persp)) 0
  let threshold2 :=
    if m.fromSq ∈ hangingBefore ∧
        (R.attackers temp (!R.turn b) m.toSq).length ≤ (R.attackers temp (R.turn b) m.toSq).length then
      threshold1 + 1
    else threshold1
  let queenSac :=
    match queenSquare R temp persp with
    | none => false
    | some qsq =>
      match R.attackers temp (!persp) qsq with
      | [] => false
      | a :: _ =>
        let capMove : Mv := { fromSq := a, toSq := qsq, promotion := none }
        if capMove ∈ R.legalMoves temp then
          decide (7 ≤ baseline - evaluate_material R (R.push temp capMove) persp)
        else false
  queenSac || decide (threshold2 ≤ worst)

/-- ChessGame._would_be_gross_blunder (lines 761-815): phase and density aware
threshold, then the veto decision of `blunderRest`. -/
def would_be_gross_blunder {B : Type} (R : Rules B) (b : B) (m : Mv) : Bool :=
  blunderRest R b m (blunder_threshold R b)

/-- ChessGame._would_be_gross_blunder with the live board threaded: only the
tactical-density computation inside _blunder_threshold pushes and pops the
live board; the rest of the check reads it and works on a copy (temp). -/
def would_be_gross_blunderS {B : Type} (R : Rules B) (b : B) (m : Mv) : Bool × B :=
  let p := blunder_thresholdS R b
  (blunderRest R p.2 m p.1, p.2)

/-- Lookup in the per-turn veto dictionary (_vetoed_moves_this_turn.get(uci, 0)),
modelled as an association list. -/
def lookupVetoCount (d : List (String × Nat)) (k : String) : Nat :=
  match d.find? (fun e => e.1 == k) with
  | some e => e.2
  | none => 0

/-- Increment of the per-turn veto dictionary
(_vetoed_moves_this_turn[uci] = get(uci, 0) + 1). -/
def bumpVetoCount (d : List (String × Nat)) (k : String) : List (String × Nat) :=
  if d.any (fun e => e.1 == k) then
    d.map (fun e => if e.1 == k then (e.1, e.2 + 1) else e)
  else d ++ [(k, 1)]

/-- ChessGame.get_safe_fallback_action (chess_game.py lines 887-932): rank the
legal moves not vetoed this turn by worst-case material over the first 10
forcing-first replies, with a 0.5 bonus for evacuating a hanging piece to a
square with no attacker surplus, and return the UCI of the best-scoring move
(the first one on ties, as Python max does); if every move is vetoed, return
the first legal move; if there is no legal move, the empty string. -/
def get_safe_fallback_action {B : Type} (R : Rules B) (b : B) (vetoed : List (String × Nat)) : String :=
  match R.legalMoves b with
  | [] => ""
  | first :: restLegal =>
    let legal := first :: restLegal
    let hangingBefore := get_hanging_squares_for_current R b
    let notVetoed := legal.filter (fun mv => !(decide (1 ≤ lookupVetoCount vetoed (uciOfMove mv))))
    let candidates := notVetoed.map (fun mv =>
      let temp := R.push b mv
      let persp := R.turn b
      let baseline := evaluate_material R b persp
      let replies := R.legalMoves temp
      let forcing := replies.filter (fun r => R.isCapture temp r)
      let ordered := forcing ++ replies.filter (fun r => decide (r ∉ forcing))
      let worst := (ordered.take 10).foldl (fun w opp =>
        let delta := baseline - evaluate_material R (R.push temp opp) persp
        if w < delta then delta else w) 0
      let bonus : ℚ :=
        if mv.fromSq ∈ hangingBefore ∧
            (R.attackers temp (!R.turn b) mv.toSq).length ≤ (R.attackers temp (R.turn b) mv.toSq).length then
          (1 : ℚ) / 2
        else 0
      ((-((worst : ℚ) - bonus), mv) : ℚ × Mv))
    match candidates with
    | [] => uciOfMove first
    | c :: cs => uciOfMove (cs.foldl (fun best x => if best.1 < x.1 then x else best) c).2

/-- get_safe_fallback_action with the live board made explicit: the source
only reads self.board there (all pushes and pops act on per-candidate copies),
so the returned live board is the input board. -/
def get_safe_fallback_actionS {B : Type} (R : Rules B) (b : B) (vetoed : List (String × Nat)) : String × B :=
  (get_safe_fallback_action R b vetoed, b)

/-- The mutable state of a two-player game object that the decision loop
touches (BaseGame.__init__ and ChessGame.__init__): the live board, the
current player index (player 0 is WHITE, player 1 is BLACK), the move counter,
the per-player failed-move sets and last failure reasons, the per-turn veto
dictionary, the veto/force flags exchanged between ChessGame and the loop,
and the SAN history. -/
structure GameState (B : Type) where
  board : B
  currentPlayerIndex : Nat
  moveCount : Nat
  failedMoves0 : List String
  failedMoves1 : List String
  lastFailureReason0 : String
  lastFailureReason1 : String
  vetoedMovesThisTurn : List (String × Nat)
  skipTrackFailed : Bool
  lastVetoed : Bool
  forceApplyOnce : Option String
  movesSan : List String
deriving DecidableEq, Repr

/-- Write this player's entry of _last_failure_reason. -/
def setLastFailure {B : Type} (st : GameState B) (msg : String) : GameState B :=
  if st.currentPlayerIndex = 0 then { st with lastFailureReason0 := msg }
  else { st with lastFailureReason1 := msg }

/-- failed_moves[player_name].add(action) (a set: no duplicates). -/
def addFailedMove {B : Type} (st : GameState B) (a : String) : GameState B :=
  if st.currentPlayerIndex = 0 then
    { st with failedMoves0 := if a ∈ st.failedMoves0 then st.failedMoves0 else st.failedMoves0 ++ [a] }
  else
    { st with failedMoves1 := if a ∈ st.failedMoves1 then st.failedMoves1 else st.failedMoves1 ++ [a] }

/-- On a successful move: failed_moves[player].clear() and
_last_failure_reason[player] = "" (base_game.py lines 300-302). -/
def clearPlayerFailures {B : Type} (st : GameState B) : GameState B :=
  if st.currentPlayerIndex = 0 then
    { st with failedMoves0 := [], lastFailureReason0 := "" }
  else
    { st with failedMoves1 := [], lastFailureReason1 := "" }

/-- BaseGame.next_player: advance the index modulo the two players. -/
def nextPlayerState {B : Type} (st : GameState B) : GameState B :=
  { st with currentPlayerIndex := (st.currentPlayerIndex + 1) % 2 }

/-- ASCII lower-casing of one character (the case Python str.lower applies to
move strings). -/
def lowerChar (c : Char) : Char :=
  if 65 ≤ c.toNat ∧ c.toNat ≤ 90 then Char.ofNat (c.toNat + 32) else c

/-- Python str.lower on the character list of the string. -/
def pyLower (s : String) : String :=
  String.mk (s.data.map lowerChar)

/-- Whitespace test of Python str.strip (space, tab, newline, return). -/
def isSpaceChar (c : Char) : Bool :=
  decide (c.toNat = 32) || decide (c.toNat = 9) || decide (c.toNat = 10) || decide (c.toNat = 13)

/-- Python str.strip on the character list of the string. -/
def pyStrip (s : String) : String :=
  String.mk (((s.data.dropWhile isSpaceChar).reverse.dropWhile isSpaceChar).reverse)

/-- ChessGame.validate_and_apply_action (chess_game.py lines 167-291).
Parse the stripped action as UCI (lowercased) and otherwise as SAN; fail with
a parse reason when neither parses.  For a parsed move: when it is legal, run
the blunder check; a veto records the failure reason, sets the skip-track flag
and bumps the per-turn veto count, returning False; otherwise the SAN is
recorded and the move is pushed onto the live board, returning True.  An
illegal parsed move records a failure reason and returns False.  Note that the
function never consults the force-apply flag of the state, mirroring the
source, and the quotes around the action in the failure messages are omitted. -/
def validate_and_apply_action {B : Type} (R : Rules B) (st : GameState B) (action0 : String) :
    Bool × GameState B :=
  let action := pyStrip action0
  let mv? : Option Mv :=
    match R.parseUci (pyLower action) with
    | some m => some m
    | none => R.parseSan st.board action
  match mv? with
  | none => (false, setLastFailure st ("Could not parse move " ++ action))
  | some move =>
    if move ∈ R.legalMoves st.board then
      if would_be_gross_blunder R st.board move then
        (false,
          { setLastFailure st "Previous attempt likely blundered material (>threshold)" with
            skipTrackFailed := true,
            vetoedMovesThisTurn := bumpVetoCount st.vetoedMovesThisTurn (uciOfMove move) })
      else
        let sanMove := R.san st.board move
        (true, { st with movesSan := st.movesSan ++ [sanMove], board := R.push st.board move })
    else
      (false, setLastFailure st ("Move " ++ action ++ " is not legal in this position"))

/-- Display string of one legal move in the prompt of get_prompt: SAN followed
by the UCI in parentheses. -/
def movePairString {B : Type} (R : Rules B) (b : B) (m : Mv) : String :=
  R.san b m ++ " (" ++ uciOfMove m ++ ")"

/-- shown_pairs of ChessGame.get_prompt (lines 323-332): every legal move,
captures first, formatted as SAN (UCI).  The source materializes moves as UCI
strings and parses them back with Move.from_uci, an identity round trip
modelled here at the move level. -/
def shownPairs {B : Type} (R : Rules B) (b : B) : List String :=
  let legal := R.legalMoves b
  let captures := legal.filter (fun m => R.isCapture b m)
  let nonCaptures := legal.filter (fun m => !R.isCapture b m)
  (captures ++ nonCaptures).map (fun m => movePairString R b m)

/-- The ellipsis line appended when more than 20 moves exist (line 336). -/
def moreMovesLine {B : Type} (R : Rules B) (b : B) : String :=
  "... and " ++ toString ((shownPairs R b).length - 20) ++ " more moves"

/-- shown_moves of ChessGame.get_prompt (lines 333-336): the full pair list
when it has at most 20 entries, else its first 20 entries plus the ellipsis
line. -/
def shownMoves {B : Type} (R : Rules B) (b : B) : List String :=
  let pairs := shownPairs R b
  if pairs.length ≤ 20 then pairs
  else pairs.take 20 ++ [moreMovesLine R b]

/-- The legal-move listing that get_prompt embeds in the prompt, as a function
of the game state: the source derives it from self.board alone. -/
def getPromptShownMoves {B : Type} (R : Rules B) (st : GameState B) : List String :=
  shownMoves R st.board

/-- ChessGame.get_max_attempts (lines 883-885): 5 in the endgame, else 3. -/
def get_max_attempts {B : Type} (R : Rules B) (b : B) : Nat :=
  if detect_game_phase R b = Phase.endgame then 5 else 3

/-- ChessGame.reconcile_turn (lines 453-465): set the current player index to
the player whose color is the board's side to move; never touches the board. -/
def reconcileTurn {B : Type} (R : Rules B) (st : GameState B) : GameState B :=
  { st with currentPlayerIndex := if R.turn st.board = WHITE then 0 else 1 }

/-- ChessGame.start_turn_setup (lines 467-475): clear the per-turn veto
dictionary (the turn identifier and timer are logging only). -/
def startTurnSetup {B : Type} (st : GameState B) : GameState B :=
  { st with vetoedMovesThisTurn := [] }

/-- Outcome of one iteration of the retry loop of BaseGame.make_move: either
the loop returns (done), or it continues with updated attempt and veto-retry
counters. -/
inductive StepOutcome (B : Type) where
  | done : Bool → GameState B → StepOutcome B
  | retry : Nat → Nat → GameState B → StepOutcome B
deriving DecidableEq, Repr

/-- The attempt and veto-retry counters a loop iteration continues with, or
none when the iteration returned. -/
def retryCounters {B : Type} : StepOutcome B → Option (Nat × Nat)
  | StepOutcome.retry a v _ => some (a, v)
  | _ => none

/-- The part of the make_move loop body from `self.move_count += 1` onward
(base_game.py lines 276-422): validate and apply the action; on success clear
the player's failures and hand the turn over; on failure consume the
skip-track flag (set on a veto) to decide whether to record the failed move,
then read the _last_vetoed flag.  When that flag is set, a veto retry is
counted and, at the cap of 2, the safe fallback is applied under the
force-apply flag; when it is not set, the attempt counter is incremented and,
at the attempt cap, the safe fallback is applied without any flag. -/
def makeMoveValidatePhase {B : Type} (R : Rules B) (maxAttempts : Nat)
    (attempt vetoRetries : Nat) (action : String) (st0 : GameState B) : StepOutcome B :=
  let st1 := { st0 with moveCount := st0.moveCount + 1 }
  let r := validate_and_apply_action R st1 action
  if r.1 then
    StepOutcome.done true (nextPlayerState (clearPlayerFailures r.2))
  else
    let st2 := r.2
    let skipTrack := st2.skipTrackFailed
    let st3 := { st2 with skipTrackFailed := false }
    let st4 := if skipTrack then st3 else addFailedMove st3 action
    let vetoed := st4.lastVetoed
    let st5 := { st4 with lastVetoed := false }
    if vetoed then
      let vetoRetries1 := vetoRetries + 1
      if 2 ≤ vetoRetries1 then
        let fallback := get_safe_fallback_action R st5.board st5.vetoedMovesThisTurn
        let st6 := { st5 with forceApplyOnce := some fallback }
        let r2 := validate_and_apply_action R st6 fallback
        let st7 := { r2.2 with forceApplyOnce := none }
        if r2.1 then StepOutcome.done true (nextPlayerState st7)
        else StepOutcome.done false st7
      else StepOutcome.retry attempt vetoRetries1 st5
    else
      let attempt1 := attempt + 1
      if maxAttempts ≤ attempt1 then
        let fallback := get_safe_fallback_action R st5.board st5.vetoedMovesThisTurn
        let r2 := validate_and_apply_action R st5 fallback
        if r2.1 then StepOutcome.done true (nextPlayerState r2.2)
        else StepOutcome.done false r2.2
      else StepOutcome.retry attempt1 vetoRetries st5

/-- One iteration of the make_move retry loop (base_game.py lines 235-422),
given this iteration's prompt_player outcome (`resp`, the parsed action or
None).  A missing action on any attempt but the last continues the loop with
every counter unchanged; on the last attempt the safe fallback is taken as
the action (or the turn fails when no legal move exists). -/
def makeMoveStep {B : Type} (R : Rules B) (maxAttempts : Nat) (resp : Option String)
    (attempt vetoRetries : Nat) (st : GameState B) : StepOutcome B :=
  match resp with
  | some action => makeMoveValidatePhase R maxAttempts attempt vetoRetries action st
  | none =>
    if attempt = maxAttempts - 1 then
      match R.legalMoves st.board with
      | [] => StepOutcome.done false st
      | _ => makeMoveValidatePhase R maxAttempts attempt vetoRetries
          (get_safe_fallback_action R st.board st.vetoedMovesThisTurn) st
    else StepOutcome.retry attempt vetoRetries st

/-- The `while attempt < max_attempts` loop of make_move, with explicit fuel:
`none` means the loop has not returned within `fuel` iterations.  Each
iteration consumes the next prompt_player outcome from the response stream. -/
def makeMoveLoop {B : Type} (R : Rules B) (maxAttempts : Nat) :
    Nat → List (Option String) → Nat → Nat → GameState B → Option (Bool × GameState B)
  | 0, _, _, _, _ => none
  | Nat.succ fuel, responses, attempt, vetoRetries, st =>
    if attempt < maxAttempts then
      match makeMoveStep R maxAttempts (responses.headD none) attempt vetoRetries st with
      | StepOutcome.done ok st1 => some (ok, st1)
      | StepOutcome.retry a v st1 => makeMoveLoop R maxAttempts fuel responses.tail a v st1
    else some (false, st)

/-- BaseGame.make_move (base_game.py lines 192-424) for the chess subclass:
reconcile the turn, reset the per-turn state, compute the dynamic attempt cap,
fail at once with False when no legal move exists, and otherwise run the retry
loop with attempt and veto-retry counters starting at 0.  The stream of
prompt_player outcomes (parsed action or None per model call) is an input. -/
def make_move {B : Type} (R : Rules B) (fuel : Nat) (responses : List (Option String))
    (st0 : GameState B) : Option (Bool × GameState B) :=
  let st1 := startTurnSetup (reconcileTurn R st0)
  let maxAttempts := get_max_attempts R st1.board
  if R.legalMoves st1.board = [] then some (false, st1)
  else makeMoveLoop R maxAttempts fuel responses 0 0 st1

/-- python-chess Board.is_checkmate over the interface: the side to move is in
check and has no legal move. -/
def isCheckmate {B : Type} (R : Rules B) (b : B) : Prop :=
  R.isCheck b = true ∧ R.legalMoves b = []

/-- Modelled from the spec (section 4.3, step 8): the candidate move moves the
queen of the side to move.  The source never computes this; the definition
exists only to compare the threshold adjustments the spec describes with the
source translation. -/
def specMovesQueen {B : Type} (R : Rules B) (b : B) (m : Mv) : Bool :=
  decide (R.pieceAt b m.fromSq = some { pieceType := PieceType.queen, color := R.turn b })

/-- Modelled from the spec (section 4.3, step 4): gives_check, whether the
position after the candidate move is check.  The source never records this
inside the blunder check. -/
def specGivesCheck {B : Type} (R : Rules B) (b : B) (m : Mv) : Bool :=
  R.isCheck (R.push b m)

/-- Modelled from the spec (section 4.3, steps 8-9): the veto decision with
the two extra threshold adjustments the spec claims, +1 when the move moves
the queen and +2 when it gives check, on top of the adjustments found in the
source.  Used only for comparison with `would_be_gross_blunder`. -/
def specVetoWithQueenCheckAdjust {B : Type} (R : Rules B) (b : B) (m : Mv) : Bool :=
  queenSacFlag R b m ||
    decide (blunder_threshold R b
      + (if evaluate_material R b (R.turn b) < -2 then 1 else 0)
      + (if m.fromSq ∈ get_hanging_squares_for_current R b ∧
            (R.attackers (R.push b m) (!R.turn b) m.toSq).length ≤
              (R.attackers (R.push b m) (R.turn b) m.toSq).length then 1 else 0)
      + (if specMovesQueen R b m then 1 else 0)
      + (if specGivesCheck R b m then 2 else 0)
      ≤ worstDrop R b m)

/-
Concrete rules-engine instances.  The theorems below are universally
quantified over the engine; these small finite instances give them concrete
inputs: each instance is a table of engine answers, as a trace of the calls
the Python code would make.
-/

/-- Move a1 to b1. -/
def mvA : Mv := { fromSq := 0, toSq := 1, promotion := none }

/-- Move a1 to c1. -/
def mvB : Mv := { fromSq := 0, toSq := 2, promotion := none }

/-- Opponent reply to `mvA` in the loop instance. -/
def rplA : Mv := { fromSq := 8, toSq := 1, promotion := none }

/-- Opponent reply to `mvB` in the loop instance. -/
def rplB : Mv := { fromSq := 8, toSq := 2, promotion := none }

/-- A quiet engine instance with one position (board 0), one legal move `mvA`
leading to board 1 where the mover has delivered mate (check, no replies). -/
def instOk : Rules Nat where
  pieceAt := fun _ _ => none
  turn := fun _ => WHITE
  legalMoves := fun b => if b = 0 then [mvA] else []
  push := fun b m => if b = 0 ∧ m = mvA then 1 else b
  pop := fun b => b
  isCapture := fun _ _ => false
  attackers := fun _ _ _ => []
  isCheck := fun b => decide (b = 1)
  fullmoveNumber := fun _ => 1
  hasKingsideCastling := fun _ _ => false
  hasQueensideCastling := fun _ _ => false
  parseUci := fun s => if s = "a1b1" then some mvA else none
  parseSan := fun _ _ => none
  san := fun _ m => uciOfMove m
  fen := fun b => toString b

/-- Engine instance for the decision-loop runs: board 0 has two legal moves
`mvA` (to board 1) and `mvB` (to board 2); each has a single reply (to boards
3 and 4) after which the mover is down a queen, so the blunder check vetoes
both moves. -/
def loopInst : Rules Nat where
  pieceAt := fun b sq => if 3 ≤ b ∧ sq = 0 then some { pieceType := PieceType.queen, color := BLACK } else none
  turn := fun _ => WHITE
  legalMoves := fun b =>
    if b = 0 then [mvA, mvB] else if b = 1 then [rplA] else if b = 2 then [rplB] else []
  push := fun b m =>
    if b = 0 ∧ m = mvA then 1
    else if b = 0 ∧ m = mvB then 2
    else if b = 1 ∧ m = rplA then 3
    else if b = 2 ∧ m = rplB then 4
    else b
  pop := fun b => b
  isCapture := fun _ _ => false
  attackers := fun _ _ _ => []
  isCheck := fun _ => false
  fullmoveNumber := fun _ => 1
  hasKingsideCastling := fun _ _ => false
  hasQueensideCastling := fun _ _ => false
  parseUci := fun s => if s = "a1b1" then some mvA else if s = "a1c1" then some mvB else none
  parseSan := fun _ _ => none
  san := fun _ m => uciOfMove m
  fen := fun b => toString b

/-- A fresh game state on board 0 of a Nat-board instance. -/
def loopState0 : GameState Nat where
  board := 0
  currentPlayerIndex := 0
  moveCount := 0
  failedMoves0 := []
  failedMoves1 := []
  lastFailureReason0 := ""
  lastFailureReason1 := ""
  vetoedMovesThisTurn := []
  skipTrackFailed := false
  lastVetoed := false
  forceApplyOnce := none
  movesSan := []

/-- The same state after a veto of a1b1 was recorded this turn. -/
def loopStateVeto : GameState Nat :=
  { loopState0 with vetoedMovesThisTurn := [("a1b1", 1)] }

/-- Candidate move of the queen-sacrifice instance. -/
def mvQ : Mv := { fromSq := 3, toSq := 4, promotion := none }

/-- The capture of the queen in the queen-sacrifice instance. -/
def capQ : Mv := { fromSq := 8, toSq := 0, promotion := none }

/-- Engine instance realizing the queen-sacrifice rule at a material drop of
exactly 7: after `mvQ` (board 1) the mover's queen stands on square 0,
attacked from square 8; the capture `capQ` leads to board 2 where the mover is
down exactly 7 (an opposing rook and two pawns remain). -/
def instQ7 : Rules Nat where
  pieceAt := fun b sq =>
    if b = 1 ∧ sq = 0 then some { pieceType := PieceType.queen, color := WHITE }
    else if b = 2 ∧ sq = 1 then some { pieceType := PieceType.rook, color := BLACK }
    else if b = 2 ∧ sq = 2 then some { pieceType := PieceType.pawn, color := BLACK }
    else if b = 2 ∧ sq = 3 then some { pieceType := PieceType.pawn, color := BLACK }
    else none
  turn := fun _ => WHITE
  legalMoves := fun b => if b = 0 then [mvQ] else if b = 1 then [capQ] else []
  push := fun b m => if b = 0 ∧ m = mvQ then 1 else if b = 1 ∧ m = capQ then 2 else b
  pop := fun b => b
  isCapture := fun _ _ => false
  attackers := fun b c sq => if b = 1 ∧ c = BLACK ∧ sq = 0 then [8] else []
  isCheck := fun _ => false
  fullmoveNumber := fun _ => 1
  hasKingsideCastling := fun _ _ => false
  hasQueensideCastling := fun _ _ => false
  parseUci := fun _ => none
  parseSan := fun _ _ => none
  san := fun _ m => uciOfMove m
  fen := fun b => toString b

/-- Queen move of the threshold-adjustment instance. -/
def mv7 : Mv := { fromSq := 0, toSq := 9, promotion := none }

/-- Reply of the threshold-adjustment instance: a pawn takes the rook. -/
def rpl7 : Mv := { fromSq := 12, toSq := 5, promotion := none }

/-- Engine instance for the threshold adjustments: on board 0 the mover has a
queen (square 0) and a rook (square 5, defended once and attacked once by the
opposing pawn on square 12).  The queen move `mv7` gives check (board 1); the
reply `rpl7` captures the rook (board 2), a worst drop of 5 against a base
threshold of 3.  The spec's queen-move and gives-check adjustments would raise
the threshold to 6 and not veto. -/
def instC7 : Rules Nat where
  pieceAt := fun b sq =>
    if b = 0 ∧ sq = 0 then some { pieceType := PieceType.queen, color := WHITE }
    else if b = 0 ∧ sq = 5 then some { pieceType := PieceType.rook, color := WHITE }
    else if b = 0 ∧ sq = 12 then some { pieceType := PieceType.pawn, color := BLACK }
    else if b = 1 ∧ sq = 9 then some { pieceType := PieceType.queen, color := WHITE }
    else if b = 1 ∧ sq = 5 then some { pieceType := PieceType.rook, color := WHITE }
    else if b = 1 ∧ sq = 12 then some { pieceType := PieceType.pawn, color := BLACK }
    else if b = 2 ∧ sq = 9 then some { pieceType := PieceType.queen, color := WHITE }
    else if b = 2 ∧ sq = 5 then some { pieceType := PieceType.pawn, color := BLACK }
    else none
  turn := fun _ => WHITE
  legalMoves := fun b => if b = 0 then [mv7] else if b = 1 then [rpl7] else []
  push := fun b m => if b = 0 ∧ m = mv7 then 1 else if b = 1 ∧ m = rpl7 then 2 else b
  pop := fun b => b
  isCapture := fun b m => decide (b = 1 ∧ m = rpl7)
  attackers := fun b c sq =>
    if b = 0 ∧ c = BLACK ∧ sq = 5 then [12]
    else if b = 0 ∧ c = WHITE ∧ sq = 5 then [0]
    else []
  isCheck := fun b => decide (b = 1)
  fullmoveNumber := fun _ => 1
  hasKingsideCastling := fun _ _ => false
  hasQueensideCastling := fun _ _ => false
  parseUci := fun _ => none
  parseSan := fun _ _ => none
  san := fun _ m => uciOfMove m
  fen := fun b => toString b

/-- Engine instance whose boards are explicit move stacks, so that push and
pop are genuine inverses: pushing conses the move, popping drops it. -/
def instStack : Rules (List Mv) where
  pieceAt := fun _ _ => none
  turn := fun _ => WHITE
  legalMoves := fun b => if b = [] then [mvA] else []
  push := fun b m => m :: b
  pop := fun b => b.tail
  isCapture := fun _ _ => false
  attackers := fun _ _ _ => []
  isCheck := fun _ => false
  fullmoveNumber := fun _ => 1
  hasKingsideCastling := fun _ _ => false
  hasQueensideCastling := fun _ _ => false
  parseUci := fun _ => none
  parseSan := fun _ _ => none
  san := fun _ m => uciOfMove m
  fen := fun b => toString b.length

/-
Lemmas and claim theorems.
-/

/-- Folding addition of a pointwise function equals the sum of the mapped list. -/
lemma foldl_add_eq_sum (f : Nat → Int) :
    ∀ (l : List Nat) (s : Int), l.foldl (fun a x => a + f x) s = s + (l.map f).sum := by
  intro l
  induction l with
  | nil => intro s; simp
  | cons x t ih => intro s; simp [ih, add_assoc]

/-- Summing the pointwise negation negates the sum. -/
lemma sum_map_neg (l : List Nat) (f : Nat → Int) :
    (l.map (fun x => - f x)).sum = - (l.map f).sum := by
  induction l with
  | nil => simp
  | cons x t ih => simp [ih]; omega

/-- One square contributes opposite amounts to the two perspectives. -/
lemma contribution_neg {B : Type} (R : Rules B) (b : B) (sq : Nat) :
    squareContribution R b WHITE sq = - squareContribution R b BLACK sq := by
  unfold squareContribution
  cases R.pieceAt b sq with
  | none => simp
  | some p => cases hc : p.color <;> simp [WHITE, BLACK, hc]

/-- C10: the material evaluator is antisymmetric in its perspective argument:
for every engine and board, evaluate_material from the WHITE perspective is
the negation of evaluate_material from the BLACK perspective, because every
non-king piece contributes its value positively to its own color and
negatively to the other. -/
theorem c10_material_antisymmetric {B : Type} (R : Rules B) (b : B) :
    evaluate_material R b WHITE = - evaluate_material R b BLACK := by
  unfold evaluate_material
  rw [foldl_add_eq_sum, foldl_add_eq_sum]
  simp only [zero_add]
  have hmap : (List.range 64).map (fun sq => squareContribution R b WHITE sq)
      = (List.range 64).map (fun sq => - squareContribution R b BLACK sq) :=
    List.map_congr_left (fun sq _ => contribution_neg R b sq)
  rw [show (fun sq => squareContribution R b WHITE sq) = squareContribution R b WHITE from rfl] at hmap
  rw [hmap, sum_map_neg]

/-- The threshold accumulation of the source equals its closed form. -/
lemma ite_threshold_sum (p q : Prop) [Decidable p] [Decidable q] (t : Int) :
    (if q then (if p then t + 1 else t) + 1 else (if p then t + 1 else t))
      = t + (if p then 1 else 0) + (if q then 1 else 0) := by
  split_ifs <;> omega

/-- Decomposition of the blunder check: the veto fires exactly when the
queen-sacrifice flag is set or the worst drop reaches the base threshold plus
the materially-behind and hanging-evacuation adjustments. -/
lemma blunder_decompose {B : Type} (R : Rules B) (b : B) (m : Mv) :
    would_be_gross_blunder R b m =
      (queenSacFlag R b m ||
        decide (blunder_threshold R b
          + (if evaluate_material R b (R.turn b) < -2 then 1 else 0)
          + (if m.fromSq ∈ get_hanging_squares_for_current R b ∧
                (R.attackers (R.push b m) (!R.turn b) m.toSq).length ≤
                  (R.attackers (R.push b m) (R.turn b) m.toSq).length then 1 else 0)
          ≤ worstDrop R b m)) := by
  simp only [would_be_gross_blunder, blunderRest, worstDrop, queenSacFlag]
  rw [ite_threshold_sum]

/-- With no opponent reply after the move, the worst drop scan yields 0. -/
lemma worstDrop_of_no_replies {B : Type} (R : Rules B) (b : B) (m : Mv)
    (h : R.legalMoves (R.push b m) = []) : worstDrop R b m = 0 := by
  simp only [worstDrop, h, List.filter_nil, List.nil_append, List.take_nil, List.foldl_nil]

/-- With no opponent reply after the move, the queen capture is never legal,
so the queen-sacrifice flag is not set. -/
lemma queenSacFlag_of_no_replies {B : Type} (R : Rules B) (b : B) (m : Mv)
    (h : R.legalMoves (R.push b m) = []) : queenSacFlag R b m = false := by
  simp only [queenSacFlag]
  split
  · rfl
  · split
    · rfl
    · simp [h]

/-- The base blunder threshold is always at least 3. -/
lemma blunder_threshold_ge {B : Type} (R : Rules B) (b : B) :
    3 ≤ blunder_threshold R b := by
  simp only [blunder_threshold]
  split_ifs <;> norm_num

/-- C5: a mating move is never vetoed: when the position after the candidate
move is checkmate (the mover delivered mate), the blunder check returns
false, since no opponent reply exists to produce a material drop and the
queen capture of the queen-sacrifice rule cannot be legal. -/
theorem c5_checkmate_never_vetoed {B : Type} (R : Rules B) (b : B) (m : Mv)
    (h : isCheckmate R (R.push b m)) : would_be_gross_blunder R b m = false := by
  obtain ⟨-, hnil⟩ := h
  rw [blunder_decompose R b m, worstDrop_of_no_replies R b m hnil,
    queenSacFlag_of_no_replies R b m hnil]
  have h3 := blunder_threshold_ge R b
  simp only [Bool.false_or, decide_eq_false_iff_not]
  split_ifs <;> omega

/-- Witness for C5: in the mate instance, pushing the only legal move gives a
checkmate position and the blunder check indeed returns false. -/
theorem c5_witness :
    isCheckmate instOk (instOk.push 0 mvA) ∧ would_be_gross_blunder instOk 0 mvA = false :=
  ⟨⟨by decide, by decide⟩, c5_checkmate_never_vetoed instOk 0 mvA ⟨by decide, by decide⟩⟩

/-- C6 (amended): in the blunder check, when the mover still has a queen after
the candidate move (first queen square q), that square has an opposing
attacker (first attacker a), and the capture from a to q is legal, the
queen_sac flag is set exactly when the capture drops at least 7 material from
the pre-move baseline (the source constant is 7, not the 8 the claim states),
and a set flag vetoes the move. -/
theorem c6_queen_sac_drop_threshold {B : Type} (R : Rules B) (b : B) (m : Mv)
    (q a : Nat) (rest : List Nat)
    (hq : queenSquare R (R.push b m) (R.turn b) = some q)
    (ha : R.attackers (R.push b m) (!R.turn b) q = a :: rest)
    (hleg : ({ fromSq := a, toSq := q, promotion := none } : Mv) ∈ R.legalMoves (R.push b m)) :
    (queenSacFlag R b m = true ↔
      7 ≤ evaluate_material R b (R.turn b)
        - evaluate_material R (R.push (R.push b m) { fromSq := a, toSq := q, promotion := none }) (R.turn b))
    ∧ (queenSacFlag R b m = true → would_be_gross_blunder R b m = true) := by
  constructor
  · simp only [queenSacFlag, hq, ha]
    rw [if_pos hleg]
    exact ⟨of_decide_eq_true, decide_eq_true⟩
  · intro hflag
    rw [blunder_decompose R b m, hflag, Bool.true_or]

/-- Witness for C6: in the drop-7 instance the hypotheses hold concretely and
the theorem yields the flag equivalence and the veto implication. -/
theorem c6_witness :
    queenSquare instQ7 (instQ7.push 0 mvQ) (instQ7.turn 0) = some 0
    ∧ ((queenSacFlag instQ7 0 mvQ = true ↔
        7 ≤ evaluate_material instQ7 0 (instQ7.turn 0)
          - evaluate_material instQ7 (instQ7.push (instQ7.push 0 mvQ) { fromSq := 8, toSq := 0, promotion := none }) (instQ7.turn 0))
      ∧ (queenSacFlag instQ7 0 mvQ = true → would_be_gross_blunder instQ7 0 mvQ = true)) :=
  ⟨by decide, c6_queen_sac_drop_threshold instQ7 0 mvQ 0 8 [] (by decide) (by decide) (by decide)⟩

/-- Counterexample for C6 as stated: a queen capture whose material drop is
exactly 7, strictly less than the 8 the claim requires, still sets the
queen_sac flag. -/
theorem c6_counterexample_drop_seven :
    evaluate_material instQ7 0 (instQ7.turn 0)
      - evaluate_material instQ7 (instQ7.push (instQ7.push 0 mvQ) capQ) (instQ7.turn 0) = 7
    ∧ queenSquare instQ7 (instQ7.push 0 mvQ) (instQ7.turn 0) = some 0
    ∧ instQ7.attackers (instQ7.push 0 mvQ) (!instQ7.turn 0) 0 = [8]
    ∧ capQ ∈ instQ7.legalMoves (instQ7.push 0 mvQ)
    ∧ queenSacFlag instQ7 0 mvQ = true := by decide

/-- C7 (amended): the veto threshold of the blunder check is the base
threshold adjusted only by +1 when the mover is already materially behind
(baseline below -2) and by +1 when the move evacuates a hanging piece to a
square with no attacker surplus; the check applies no adjustment for moving
the queen and none for giving check. -/
theorem c7_threshold_adjustments {B : Type} (R : Rules B) (b : B) (m : Mv) :
    would_be_gross_blunder R b m =
      (queenSacFlag R b m ||
        decide (blunder_threshold R b
          + (if evaluate_material R b (R.turn b) < -2 then 1 else 0)
          + (if m.fromSq ∈ get_hanging_squares_for_current R b ∧
                (R.attackers (R.push b m) (!R.turn b) m.toSq).length ≤
                  (R.attackers (R.push b m) (R.turn b) m.toSq).length then 1 else 0)
          ≤ worstDrop R b m)) :=
  blunder_decompose R b m

/-- Counterexample for C7 as stated: a queen move that gives check is vetoed
by the source even though, with the +1 queen-move and +2 gives-check
adjustments the claim describes, the threshold would exceed the worst drop
and no veto would fire. -/
theorem c7_counterexample_queen_check_ignored :
    specMovesQueen instC7 0 mv7 = true
    ∧ specGivesCheck instC7 0 mv7 = true
    ∧ would_be_gross_blunder instC7 0 mv7 = true
    ∧ specVetoWithQueenCheckAdjust instC7 0 mv7 = false := by decide

/-- The player-indexed failure-reason update never touches the board. -/
lemma setLastFailure_board {B : Type} (st : GameState B) (s : String) :
    (setLastFailure st s).board = st.board := by
  unfold setLastFailure
  split <;> rfl

/-- C1: whenever validate_and_apply_action returns True it has pushed a move
that is a member of the legal-move list of the board at the moment of commit,
and whenever it returns False the live board is unchanged, so a move outside
the legal-move list is never pushed. -/
theorem c1_commit_only_legal {B : Type} (R : Rules B) (st : GameState B) (a : String) :
    ((validate_and_apply_action R st a).1 = true →
      ∃ m, m ∈ R.legalMoves st.board
        ∧ (validate_and_apply_action R st a).2.board = R.push st.board m)
    ∧ ((validate_and_apply_action R st a).1 = false →
      (validate_and_apply_action R st a).2.board = st.board) := by
  simp only [validate_and_apply_action]
  cases hu : R.parseUci (pyLower (pyStrip a)) with
  | none =>
    cases hs : R.parseSan st.board (pyStrip a) with
    | none => exact ⟨by simp, by simp [setLastFailure_board]⟩
    | some m =>
      by_cases hleg : m ∈ R.legalMoves st.board
      · cases hb : would_be_gross_blunder R st.board m
        · exact ⟨fun _ => ⟨m, hleg, by simp [hleg, hb]⟩, by simp [hleg, hb]⟩
        · exact ⟨by simp [hleg, hb], by simp [hleg, hb, setLastFailure_board]⟩
      · exact ⟨by simp [hleg], by simp [hleg, setLastFailure_board]⟩
  | some m =>
    by_cases hleg : m ∈ R.legalMoves st.board
    · cases hb : would_be_gross_blunder R st.board m
      · exact ⟨fun _ => ⟨m, hleg, by simp [hleg, hb]⟩, by simp [hleg, hb]⟩
      · exact ⟨by simp [hleg, hb], by simp [hleg, hb, setLastFailure_board]⟩
    · exact ⟨by simp [hleg], by simp [hleg, setLastFailure_board]⟩

/-- Witness for C1: the parse-commit path succeeds on the mate instance with
action a1b1 and the theorem produces the committed legal move. -/
theorem c1_witness :
    (validate_and_apply_action instOk loopState0 "a1b1").1 = true
    ∧ ∃ m, m ∈ instOk.legalMoves loopState0.board
        ∧ (validate_and_apply_action instOk loopState0 "a1b1").2.board = instOk.push loopState0.board m :=
  ⟨by decide, (c1_commit_only_legal instOk loopState0 "a1b1").1 (by decide)⟩

/-- When pop undoes push, the check-counting fold of the tactical density
restores the live board and counts the checking moves. -/
lemma densityS_fold {B : Type} (R : Rules B) (hpop : ∀ b m, R.pop (R.push b m) = b) :
    ∀ (l : List Mv) (n : Nat) (b : B),
      l.foldl (fun acc m =>
        let b1 := R.push acc.2 m
        ((if R.isCheck b1 then acc.1 + 1 else acc.1), R.pop b1)) (n, b)
      = (n + l.countP (fun m => R.isCheck (R.push b m)), b) := by
  intro l
  induction l with
  | nil => intro n b; simp
  | cons m t ih =>
    intro n b
    simp only [List.foldl_cons]
    rw [hpop, ih]
    simp only [List.countP_cons]
    cases hc : R.isCheck (R.push b m)
    · simp [hc]
    · simp [hc]
      omega

/-- When pop undoes push, the threaded tactical-density computation returns
the pure density and the unchanged live board. -/
lemma compute_tactical_densityS_eq {B : Type} (R : Rules B)
    (hpop : ∀ b m, R.pop (R.push b m) = b) (b : B) :
    compute_tactical_densityS R b = (compute_tactical_density R b, b) := by
  unfold compute_tactical_densityS compute_tactical_density
  rw [densityS_fold R hpop]
  simp

/-- When pop undoes push, the threaded blunder threshold returns the pure
threshold and the unchanged live board. -/
lemma blunder_thresholdS_eq {B : Type} (R : Rules B)
    (hpop : ∀ b m, R.pop (R.push b m) = b) (b : B) :
    blunder_thresholdS R b = (blunder_threshold R b, b) := by
  unfold blunder_thresholdS blunder_threshold
  rw [compute_tactical_densityS_eq R hpop]

/-- When pop undoes push, the threaded blunder check returns the pure blunder
verdict and the unchanged live board. -/
lemma would_be_gross_blunderS_eq {B : Type} (R : Rules B)
    (hpop : ∀ b m, R.pop (R.push b m) = b) (b : B) (m : Mv) :
    would_be_gross_blunderS R b m = (would_be_gross_blunder R b m, b) := by
  unfold would_be_gross_blunderS would_be_gross_blunder
  rw [blunder_thresholdS_eq R hpop]

/-- C8: frame property of the analysis passes: provided the engine pop undoes
push (the push/pop discipline of python-chess), running the blunder check,
the tactical-density computation, or the safe-fallback ranking leaves the
live board unchanged, its FEN included; only a commit mutates it. -/
theorem c8_no_live_board_mutation {B : Type} (R : Rules B)
    (hpop : ∀ b m, R.pop (R.push b m) = b) (b : B) (m : Mv)
    (vetoed : List (String × Nat)) :
    (compute_tactical_densityS R b).2 = b
    ∧ (would_be_gross_blunderS R b m).2 = b
    ∧ (get_safe_fallback_actionS R b vetoed).2 = b
    ∧ R.fen (compute_tactical_densityS R b).2 = R.fen b
    ∧ R.fen (would_be_gross_blunderS R b m).2 = R.fen b := by
  have h1 := compute_tactical_densityS_eq R hpop b
  have h2 := would_be_gross_blunderS_eq R hpop b m
  exact ⟨by rw [h1], by rw [h2], rfl, by rw [h1], by rw [h2]⟩

/-- Witness for C8 at the stack-board instance, whose push conses the move
and whose pop drops it. -/
theorem c8_witness :
    (compute_tactical_densityS instStack ([] : List Mv)).2 = ([] : List Mv)
    ∧ (would_be_gross_blunderS instStack [] mvA).2 = ([] : List Mv)
    ∧ (get_safe_fallback_actionS instStack [] []).2 = ([] : List Mv)
    ∧ instStack.fen (compute_tactical_densityS instStack []).2 = instStack.fen []
    ∧ instStack.fen (would_be_gross_blunderS instStack [] mvA).2 = instStack.fen [] :=
  c8_no_live_board_mutation instStack (fun _ _ => rfl) [] mvA []

/-- Every entry of the pair list is formatted from a legal move. -/
lemma mem_shownPairs {B : Type} {R : Rules B} {b : B} {s : String}
    (h : s ∈ shownPairs R b) :
    ∃ m, m ∈ R.legalMoves b ∧ s = movePairString R b m := by
  simp only [shownPairs, List.mem_map, List.mem_append, List.mem_filter] at h
  obtain ⟨m, hm, hfmt⟩ := h
  refine ⟨m, ?_, hfmt.symm⟩
  rcases hm with ⟨hm, -⟩ | ⟨hm, -⟩ <;> exact hm

/-- C9 (amended): the legal-move listing of the prompt is a deterministic
function of the board alone (in particular it does not change after a veto):
every shown entry other than the ellipsis line is formatted from a member of
the legal-move list, and at most 21 lines are shown (the first 20 moves plus
the ellipsis line). -/
theorem c9_shown_moves_deterministic {B : Type} (R : Rules B)
    (st st2 : GameState B) (s : String) (hb : st.board = st2.board) :
    getPromptShownMoves R st = getPromptShownMoves R st2
    ∧ (s ∈ shownMoves R st.board →
        (∃ m, m ∈ R.legalMoves st.board ∧ s = movePairString R st.board m)
        ∨ s = moreMovesLine R st.board)
    ∧ (shownMoves R st.board).length ≤ 21 := by
  refine ⟨by simp [getPromptShownMoves, hb], ?_, ?_⟩
  · intro hs
    simp only [shownMoves] at hs
    by_cases hlen : (shownPairs R st.board).length ≤ 20
    · rw [if_pos hlen] at hs
      exact Or.inl (mem_shownPairs hs)
    · rw [if_neg hlen] at hs
      rcases List.mem_append.mp hs with h | h
      · exact Or.inl (mem_shownPairs (List.mem_of_mem_take h))
      · exact Or.inr (by simpa using h)
  · simp only [shownMoves]
    by_cases hlen : (shownPairs R st.board).length ≤ 20
    · rw [if_pos hlen]; omega
    · rw [if_neg hlen]
      simp [List.length_take]

/-- Witness for C9 at the loop instance: the listing agrees between a state
with no veto and one with a recorded veto, the entry a1b1 (a1b1) comes from a
legal move, and the listing is within the 21-line bound. -/
theorem c9_witness :
    getPromptShownMoves loopInst loopState0 = getPromptShownMoves loopInst loopStateVeto
    ∧ ((∃ m, m ∈ loopInst.legalMoves loopState0.board
          ∧ "a1b1 (a1b1)" = movePairString loopInst loopState0.board m)
        ∨ "a1b1 (a1b1)" = moreMovesLine loopInst loopState0.board)
    ∧ (shownMoves loopInst loopState0.board).length ≤ 21 := by
  obtain ⟨h1, h2, h3⟩ :=
    c9_shown_moves_deterministic loopInst loopState0 loopStateVeto "a1b1 (a1b1)" rfl
  exact ⟨h1, h2 (by decide), h3⟩

/-- Counterexample for C9 as stated: the listing is not a random-sized sample
whose bounds widen after a veto: a state with no veto this turn and one with
a recorded veto produce the identical listing of the same size. -/
theorem c9_prior_veto_does_not_widen :
    loopState0.vetoedMovesThisTurn = []
    ∧ loopStateVeto.vetoedMovesThisTurn = [("a1b1", 1)]
    ∧ getPromptShownMoves loopInst loopState0 = getPromptShownMoves loopInst loopStateVeto
    ∧ (getPromptShownMoves loopInst loopState0).length = 2
    ∧ (getPromptShownMoves loopInst loopStateVeto).length = 2 := by decide

/-- C3 (code bug): one iteration of the decision loop in which the proposed
move a1b1 parses, is legal, and is vetoed by the blunder check: the loop
continues with the attempt counter incremented from 0 to 1 and the
veto-retry counter still 0, because validate_and_apply_action never sets the
last-vetoed flag that make_move checks, so the veto branch of the loop is
unreachable and every veto consumes an attempt. -/
theorem c3_veto_consumes_attempt :
    loopInst.parseUci "a1b1" = some mvA
    ∧ mvA ∈ loopInst.legalMoves 0
    ∧ would_be_gross_blunder loopInst 0 mvA = true
    ∧ retryCounters (makeMoveStep loopInst 5 (some "a1b1") 0 0 loopState0) = some (1, 0) := by
  decide

set_option maxRecDepth 200000 in
/-- C2 (code bug): a full decision-loop run in a position with two legal
moves, both vetoed by the blunder check, in which the model persistently
proposes a1b1: the attempts are exhausted, the safe fallback a1c1 is selected
and is itself vetoed, and make_move returns False (the game ends in error)
instead of committing the fallback, because the force-apply flag set by the
loop is never read by validate_and_apply_action and the veto-retry branch
that sets it is unreachable. -/
theorem c2_fallback_not_committed :
    (loopInst.legalMoves 0).length = 2
    ∧ would_be_gross_blunder loopInst 0 mvA = true
    ∧ would_be_gross_blunder loopInst 0 mvB = true
    ∧ get_safe_fallback_action loopInst 0 [("a1b1", 5)] = "a1c1"
    ∧ (make_move loopInst 10 (List.replicate 5 (some "a1b1")) loopState0).map Prod.fst
        = some false := by
  decide

/-- With no parsable response and the attempt counter away from the final
attempt, one loop iteration retries with every counter unchanged. -/
lemma makeMoveStep_none_stuck :
    makeMoveStep loopInst 5 none 0 0 loopState0 = StepOutcome.retry 0 0 loopState0 := by
  decide

/-- C4 (code bug): when every model response fails to parse, the retry loop
of make_move never terminates: whatever fuel it is given, the loop is still
running, because the parse-failure branch continues without incrementing the
attempt counter, so the attempt bound is never reached. -/
theorem c4_parse_failures_never_counted (fuel : Nat) :
    make_move loopInst fuel (List.replicate fuel none) loopState0 = none := by
  have key : ∀ f, makeMoveLoop loopInst 5 f (List.replicate f none) 0 0 loopState0 = none := by
    intro f
    induction f with
    | zero => rfl
    | succ n ih =>
      simp only [makeMoveLoop, List.replicate_succ, List.headD_cons, List.tail_cons,
        makeMoveStep_none_stuck]
      rw [if_pos (by norm_num)]
      exact ih
  show makeMoveLoop loopInst 5 fuel (List.replicate fuel none) 0 0 loopState0 = none
  exact key fuel

end Pog
